import Mathlib

/-!
Shallow embedding of the VP Bot country-resolution and conversation-flow
engine (src/vp_bot.py) and proofs about its specified behaviour.

Python strings are modelled as Lean `String` (lists of characters); the two
CSV-loaded registries (`country_links`, `alias_map`) are external data and
appear as association-list parameters `links`/`amap` with first-occurrence
lookup, matching the final state of a Python dict.  The rapidfuzz scorer is
third-party code, modelled as an abstract score function `String → String →
ℚ`; `process.extractOne` itself is modelled faithfully (best score wins, ≥
cutoff, first occurrence wins on ties).  The per-process session dict is an
explicit association list threaded through `chat_response`, and `uuid.uuid4`
is a `freshId` parameter.  Replies are an inductive type with one
constructor per `return` site of `chat_response`, carrying the variable
parts (country, link, stored doc type) of the corresponding f-string.
-/

namespace VPBot

/-- Python `str.strip()` whitespace test, restricted to the ASCII whitespace
characters (space, tab, newline, carriage return, vertical tab, form feed);
this is also the ASCII part of the regex class matched by a Python regex
whitespace escape. -/
def pyIsSpace (c : Char) : Bool :=
  c == ' ' || c == '\t' || c == '\n' || c == '\r' || c == '\x0b' || c == '\x0c'

/-- Drop leading and trailing whitespace from a character list. -/
def stripList (l : List Char) : List Char :=
  ((l.dropWhile pyIsSpace).reverse.dropWhile pyIsSpace).reverse

/-- Python `str.strip()` (ASCII whitespace). -/
def pyStrip (s : String) : String :=
  String.mk (stripList s.data)

/-- Python `str.lower()` (ASCII case folding; all data handled by the bot is
lowercased ASCII). -/
def pyLower (s : String) : String :=
  String.mk (s.data.map Char.toLower)

/-- Python substring test `needle in hay` on character lists. -/
def containsSub (needle : List Char) : List Char → Bool
  | [] => needle.isEmpty
  | c :: rest => needle.isPrefixOf (c :: rest) || containsSub needle rest

/-- Python substring test `needle in hay`. -/
def pyContains (needle hay : String) : Bool :=
  containsSub needle.data hay.data

/-- First-occurrence lookup in an association list: the value a Python dict
holds for key `k`. -/
def lookupV (m : List (String × String)) (k : String) : Option String :=
  (m.find? (fun p => p.1 == k)).map Prod.snd

/-- Python `k in m` for a dict modelled as an association list. -/
def keyMem (m : List (String × String)) (k : String) : Bool :=
  (lookupV m k).isSome

/-- Python `m.get(k, k)`: lookup with the key itself as default. -/
def aliasGetD (m : List (String × String)) (k : String) : String :=
  (lookupV m k).getD k

/-!
### The filler regex of `preprocess_input`

`preprocess_input` removes, at most once and anchored to the start of the
(stripped) string, a match of the case-insensitive pattern

  `(to|for|in|apply(ing)? (for)?|need( visa)?|i want|i need|from|visa to|visa for|information on|help with)` followed by one or more whitespace characters,

where the single space written inside the `apply`/`need` alternatives stands
for one whitespace character.  We model the alternation by listing, in the
regex engine's backtracking order, every possible remainder of the string
after the bracketed group; the match succeeds on the first remainder that
begins with whitespace (the mandatory trailing whitespace run), and the
whole whitespace run is then consumed.
-/

/-- Remainders after a literal alternative `w`, matched case-insensitively
at the start of `l` (empty list of remainders when `w` is not a prefix). -/
def litRem (w : String) (l : List Char) : List (List Char) :=
  if w.data.isPrefixOf (l.map Char.toLower) then [l.drop w.length] else []

/-- Remainders of the alternative `apply(ing)? (for)?` in backtracking
order: `applying` before `apply` (greedy optional group), then one
whitespace character, then `for` before the empty option. -/
def applyRem (l : List Char) : List (List Char) :=
  (litRem "applying" l ++ litRem "apply" l).flatMap (fun r =>
    match r with
    | c :: r2 => if pyIsSpace c then litRem "for" r2 ++ [r2] else []
    | [] => [])

/-- Remainders of the alternative `need( visa)?` in backtracking order:
`need` + whitespace + `visa` before plain `need`. -/
def needRem (l : List Char) : List (List Char) :=
  (litRem "need" l).flatMap (fun r =>
    (match r with
     | c :: r2 => if pyIsSpace c then litRem "visa" r2 else []
     | [] => []) ++ [r])

/-- All remainders after the bracketed alternation, in the order the regex
engine tries them. -/
def fillerRemainders (l : List Char) : List (List Char) :=
  litRem "to" l ++ litRem "for" l ++ litRem "in" l ++ applyRem l ++
  needRem l ++ litRem "i want" l ++ litRem "i need" l ++ litRem "from" l ++
  litRem "visa to" l ++ litRem "visa for" l ++ litRem "information on" l ++
  litRem "help with" l

/-- The `re.sub(pattern, "", s)` step of `preprocess_input`: remove the
anchored filler match (alternation plus the following whitespace run) if the
pattern matches, otherwise return the string unchanged. -/
def fillerSub (s : String) : String :=
  match (fillerRemainders s.data).find?
      (fun r => (r.head?.map pyIsSpace).getD false) with
  | some r => String.mk (r.dropWhile pyIsSpace)
  | none => s

/-- `preprocess_input` from src/vp_bot.py: strip, remove one leading filler
phrase, strip again. -/
def preprocess_input (input_country : String) : String :=
  pyStrip (fillerSub (pyStrip input_country))

/-- `normalize_country_alias` from src/vp_bot.py: strip + lowercase, strip a
filler prefix, then alias-resolve via `alias_map.get(cleaned, cleaned)`. -/
def normalize_country_alias (amap : List (String × String))
    (input_country : String) : String :=
  let cleaned := preprocess_input (pyLower (pyStrip input_country))
  aliasGetD amap cleaned

/-!
### Country matcher
-/

/-- `re.findall("[a-z]+", s)`: maximal runs of lowercase ASCII letters.
`acc` holds the current run, reversed. -/
def runsAux (acc : List Char) : List Char → List String
  | [] => if acc.isEmpty then [] else [String.mk acc.reverse]
  | c :: rest =>
    if 'a' ≤ c && c ≤ 'z' then runsAux (c :: acc) rest
    else if acc.isEmpty then runsAux [] rest
    else String.mk acc.reverse :: runsAux [] rest

/-- `re.findall("[a-z]+", s)`. -/
def findallAlpha (s : String) : List String :=
  runsAux [] s.data

/-- The candidate list of `get_closest_country_name`: unigram tokens, then
for each start index the contiguous bigram and trigram (Python list
comprehension order: outer loop over `i`, inner over `n ∈ [2, 3]`). -/
def token_candidates (normalized : String) : List String :=
  let tokens := findallAlpha normalized
  tokens ++ (List.range tokens.length).flatMap (fun i =>
    [2, 3].filterMap (fun n =>
      if i + n ≤ tokens.length then
        some (String.intercalate " " ((tokens.drop i).take n))
      else none))

/-- The token-based loop of `get_closest_country_name`: for each candidate
in order, check the alias map first, then the link registry; `none` when no
candidate hits. -/
def token_pass (amap links : List (String × String))
    (normalized : String) : Option String :=
  (token_candidates normalized).findSome? (fun candidate =>
    if keyMem amap candidate then lookupV amap candidate
    else if keyMem links candidate then some candidate
    else none)

/-- `list(set(country_links.keys()) | set(alias_map.keys()))` — the fuzzy
candidate pool.  A Python `set` enumerates in an unspecified order; we fix
the order link keys first, then alias keys, duplicates removed (all claims
proved below are insensitive to this order up to score ties, which the spec
leaves to the implementation). -/
def all_options (links amap : List (String × String)) : List String :=
  (links.map Prod.fst ++ amap.map Prod.fst).eraseDups

/-- `rapidfuzz.process.extractOne(q, opts, score_cutoff)` over an abstract
scorer: the highest-scoring option whose score reaches the cutoff, first
occurrence winning ties; `none` when no option reaches the cutoff. -/
def extractOne (score : String → String → ℚ) (q : String)
    (opts : List String) (cutoff : ℚ) : Option (String × ℚ) :=
  opts.foldl (fun acc o =>
    let s := score q o
    if cutoff ≤ s then
      match acc with
      | none => some (o, s)
      | some (b, sb) => if sb < s then some (o, s) else some (b, sb)
    else acc) none

/-- `get_closest_country_name` from src/vp_bot.py: strip/lower + filler
strip + alias-resolve, then exact link-registry match, then the token loop,
then fuzzy matching with cutoff 88, alias-resolving a fuzzy hit; falls back
to the normalized phrase.  (The Python `try/except` around `extractOne`
only guards against bad-argument errors of the external library and is not
modelled.) -/
def get_closest_country_name (amap links : List (String × String))
    (score : String → String → ℚ) (input_country : String) : String :=
  let cleaned_input := preprocess_input (pyLower (pyStrip input_country))
  let normalized := aliasGetD amap cleaned_input
  if keyMem links normalized then normalized
  else
    match token_pass amap links normalized with
    | some r => r
    | none =>
      match extractOne score normalized (all_options links amap) 88 with
      | some res => aliasGetD amap res.1
      | none => normalized

/-- `was_corrected` from src/vp_bot.py: the (re-)normalized input differs
from the stripped, lowercased matched country. -/
def was_corrected (amap : List (String × String))
    (input_country matched_country : String) : Bool :=
  normalize_country_alias amap (pyLower (pyStrip input_country)) !=
    pyLower (pyStrip matched_country)

/-!
### Support gate and link lookup
-/

/-- The literal `unsupported_countries` set of src/vp_bot.py. -/
def unsupported_countries : List String :=
  ["afghanistan", "albania", "andorra", "angola", "antigua", "austria",
   "barbuda", "bahamas", "barbados", "belgium", "bosnia and herzegovina",
   "brunei", "canada", "cape verde", "chad", "chile", "colombia", "comoros",
   "costa rica", "czech republic", "denmark", "dominican republic",
   "ecuador", "el salvador", "equatorial guinea", "eritrea", "estonia",
   "ethiopia", "fiji", "finland", "france", "germany", "greece",
   "guatemala", "haiti", "honduras", "hungary", "iceland", "israel",
   "italy", "jamaica", "korea", "kuwait", "libya", "lithuania", "luxenberg",
   "magnolia", "netherlands", "norway", "paraguay", "poland", "portugal",
   "romania", "south africa", "spain", "st kitts and nevis", "sudan",
   "sweden", "switzerland", "syria", "taiwan", "uruguay",
   "united arab emirates", "venezuela"]

/-- `is_supported_country` from src/vp_bot.py: lowercased name not in the
unsupported set. -/
def is_supported_country (country : String) : Bool :=
  !(unsupported_countries.contains (pyLower country))

/-- `get_link` from src/vp_bot.py.  The Python parameter `doc_type` is
dynamically typed and receives `None` at the fallback call site, so it is
modelled as `Option String`; the literal `"visa"` call sites pass
`some "visa"`. -/
def get_link (links : List (String × String)) (country : String)
    (doc_type : Option String) : Option String :=
  if doc_type == some "visa" then lookupV links country else none

/-!
### Session store

`sessions` maps a session id to a dict `{"doc_type": v}` whose only field is
`None`, `"visa"` or `"passport"`; a session is modelled by that single
`Option String` field.  Dict assignment updates in place or appends, which
is also the net effect of the `setdefault`-then-assign in
`update_doc_type`.
-/

/-- The session store: association list from session id to `doc_type`. -/
abbrev Store := List (String × Option String)

/-- `sessions.get(session_id)` as an association-list lookup. -/
def lookupStore (store : Store) (session_id : String) :
    Option (Option String) :=
  (store.find? (fun p => p.1 == session_id)).map Prod.snd

/-- `sessions[session_id] = {"doc_type": v}`: overwrite in place if the key
exists, else append. -/
def storeSet (store : Store) (session_id : String) (v : Option String) :
    Store :=
  if (lookupStore store session_id).isSome then
    store.map (fun p => if p.1 == session_id then (p.1, v) else p)
  else store ++ [(session_id, v)]

/-- `get_or_create_session` from src/vp_bot.py: a falsy (`None` or empty)
or unknown id is replaced by a freshly generated one bound to a session
with `doc_type = None`. -/
def get_or_create_session (store : Store) (session_id : Option String)
    (fresh : String) : String × Store :=
  match session_id with
  | none => (fresh, storeSet store fresh none)
  | some s =>
    if s == "" || (lookupStore store s).isNone then
      (fresh, storeSet store fresh none)
    else (s, store)

/-- `get_session` from src/vp_bot.py: the stored `doc_type`, with the
default dict's `None` when the id is missing. -/
def get_session (store : Store) (session_id : String) : Option String :=
  (lookupStore store session_id).getD none

/-- `update_doc_type` from src/vp_bot.py (`setdefault` then assign). -/
def update_doc_type (store : Store) (session_id : String)
    (doc_type : String) : Store :=
  storeSet store session_id (some doc_type)

/-- `reset_session` from src/vp_bot.py. -/
def reset_session (store : Store) (session_id : String) : Store :=
  storeSet store session_id none

/-!
### Intent LLM wrapper
-/

/-- The `GREETINGS` set of src/vp_bot.py. -/
def GREETINGS : List String :=
  ["hi", "hello", "hey", "hii", "hie", "yo", "greetings"]

/-- The result dict of `query_intent_and_country`. -/
structure IntentResult where
  intent : String
  country : Option String
deriving DecidableEq

/-- A JSON field value as far as `query_intent_and_country` inspects it:
a string, an explicit `null`, or any other JSON value. -/
inductive JVal where
  | jstr (s : String)
  | jnull
  | jother
deriving DecidableEq

/-- The two fields `query_intent_and_country` reads from the decoded JSON
object (`none` = key absent). -/
structure ParsedIC where
  intent : Option JVal
  country : Option JVal

/-- Outcome of the HTTP round trip to the local LLM, at the boundary of the
external `requests` library: either a raised
`requests.exceptions.RequestException` (connection error or timeout), or a
response whose extracted text is `raw`.  (`raw` is the content string after
the `response.json().get(...)`/`response.text` extraction, whose `try` arm
never raises past it.) -/
inductive LLMTransport where
  | reqError
  | body (raw : String)

/-- Both-ends strip of the backtick character: the Python
`raw_output.strip("\x60\x60\x60")` call strips any number of that one
character from each end. -/
def stripBackticks (s : String) : String :=
  String.mk (((s.data.dropWhile (· == '`')).reverse.dropWhile
    (· == '`')).reverse)

/-- The code-fence cleanup applied to `raw_output` when it starts with a
code fence: strip backticks, strip, delete every occurrence of `json` and
`python`, strip. -/
def cleanRawOutput (raw : String) : String :=
  if "```".data.isPrefixOf raw.data then
    let s1 := pyStrip (stripBackticks raw)
    pyStrip ((s1.replace "json" "").replace "python" "")
  else raw

/-- The `result.get("intent", "unknown").strip().lower()` step for a field
that is a string or absent (the raising non-string case is handled at the
call site). -/
def intent_from_field (f : Option JVal) : String :=
  match f with
  | some (.jstr s) => pyLower (pyStrip s)
  | _ => "unknown"

/-- The `if intent not in {"visa", "passport", "unknown"}` guard. -/
def validate_intent (i : String) : String :=
  if i == "visa" || i == "passport" || i == "unknown" then i else "unknown"

/-- The country extraction: a string value is normalized through the
alias map, anything else (absent, null, non-string) becomes `None`. -/
def country_from_field (amap : List (String × String))
    (f : Option JVal) : Option String :=
  match f with
  | some (.jstr s) =>
    some (normalize_country_alias amap (pyLower (pyStrip s)))
  | _ => none

/-- `query_intent_and_country` from src/vp_bot.py, parameterized by the
transport outcome and a JSON decoder oracle `parse` (`none` =
`json.JSONDecodeError`).  A non-string, non-null `intent` field makes the
Python `.strip()` raise `AttributeError`, which the outer
`except Exception` turns into the unknown result. -/
def query_intent_and_country (amap : List (String × String))
    (parse : String → Option ParsedIC) (tr : LLMTransport)
    (prompt : String) : IntentResult :=
  if prompt == "" || GREETINGS.contains (pyLower (pyStrip prompt)) then
    ⟨"unknown", none⟩
  else
    match tr with
    | .reqError => ⟨"unknown", none⟩
    | .body raw0 =>
      if cleanRawOutput raw0 == "" then ⟨"unknown", none⟩
      else
        match parse (cleanRawOutput raw0) with
        | none => ⟨"unknown", none⟩
        | some result =>
          match result.intent with
          | some .jnull => ⟨"unknown", none⟩
          | some .jother => ⟨"unknown", none⟩
          | intentField =>
            ⟨validate_intent (intent_from_field intentField),
              country_from_field amap result.country⟩

/-!
### Conversation engine (`chat_response`)

One constructor of `Reply` per `return` site, holding the variable parts of
the returned message.  In the two fallback constructors the `doc_type`
field is the stored session value used by the f-string
(`session.get("doc_type", ...)`; the default never fires because the
session dict always carries the key).
-/

/-- One value per return site of `chat_response`. -/
inductive Reply where
  | greeting
  | closing
  | startHello
  | passportOptions
  | fastNotServiced (country : String)
  | fastNoLink (country : String)
  | fastLink (country link : String)
  | llmConfirm (country : String)
  | llmNotServiced (country : String)
  | llmLink (country link : String)
  | llmNoLink (country : String)
  | passportOptionsIntent
  | askVisaCountry
  | askVisaOrPassport
  | fallbackConfirm (country : String)
  | fallbackNotServiced (country : String)
  | fallbackLink (doc_type : Option String) (country link : String)
  | fallbackNoLink (doc_type : Option String) (country : String)
deriving DecidableEq

/-- The JSON body returned by the `/chat` route plus the post-turn store. -/
structure ChatOut where
  session_id : String
  reply : Reply
  store : Store
deriving DecidableEq

/-- The `(not input.session_id or not str(input.session_id).strip())` test
of the explicit-session-start branch. -/
def sidBlank : Option String → Bool
  | none => true
  | some s => pyStrip s == ""

/-- Python truthiness of an optional string (`None` and `""` are falsy). -/
def pyTruthy : Option String → Bool
  | none => false
  | some s => s != ""

/-- The small-talk / closing phrase set of `chat_response`. -/
def smallTalkPhrases : List String :=
  ["thanks", "thank you", "bye", "okay", "ok", "k"]

/-- The explicit-session-start phrase list of `chat_response`. -/
def startPhrases : List String :=
  ["", "start", "get started"]

/-- `if not link:` on the result of `get_link`: an empty-string link is as
falsy as a missing one. -/
def truthyOpt : Option String → Option String
  | none => none
  | some s => if s == "" then none else some s

/-- The body of the fast visa-match loop of `chat_response` for the first
registry key found as a substring (src/vp_bot.py lines 820-839): support
gate first, then link lookup, each branch resetting the session. -/
def fast_visa_case (links : List (String × String))
    (session_id country_key : String) (store1 : Store) : ChatOut :=
  if !(is_supported_country country_key) then
    ⟨session_id, .fastNotServiced country_key,
      reset_session store1 session_id⟩
  else
    match truthyOpt (get_link links country_key (some "visa")) with
    | none =>
      ⟨session_id, .fastNoLink country_key, reset_session store1 session_id⟩
    | some link =>
      ⟨session_id, .fastLink country_key link,
        reset_session store1 session_id⟩

/-- The branch of `chat_response` taken when the intent hint says visa and
names a country (src/vp_bot.py lines 848-875): re-normalize, resolve,
confirm a correction, else support gate, else link lookup. -/
def llm_visa_case (links amap : List (String × String))
    (score : String → String → ℚ) (session_id country_raw0 : String)
    (store1 : Store) : ChatOut :=
  let country_raw := normalize_country_alias amap country_raw0
  let country :=
    if keyMem links country_raw then country_raw
    else get_closest_country_name amap links score country_raw
  if was_corrected amap country_raw country then
    ⟨session_id, .llmConfirm country, update_doc_type store1 session_id "visa"⟩
  else if !(is_supported_country country) then
    ⟨session_id, .llmNotServiced country, reset_session store1 session_id⟩
  else
    match truthyOpt (get_link links country (some "visa")) with
    | some link =>
      ⟨session_id, .llmLink country link, reset_session store1 session_id⟩
    | none =>
      ⟨session_id, .llmNoLink country, reset_session store1 session_id⟩

/-- The ask-for-topic branch of `chat_response` when no document type is
set (src/vp_bot.py lines 877-896). -/
def topic_prompt_case (llmRes : IntentResult) (session_id : String)
    (store1 : Store) : ChatOut :=
  if llmRes.intent == "passport" then
    ⟨session_id, .passportOptionsIntent,
      update_doc_type store1 session_id "passport"⟩
  else if llmRes.intent == "visa" then
    ⟨session_id, .askVisaCountry, update_doc_type store1 session_id "visa"⟩
  else ⟨session_id, .askVisaOrPassport, store1⟩

/-- The final fallback of `chat_response`: the whole message is treated as
a country phrase (src/vp_bot.py lines 898-931).  `session` is the stored
document type used both for the link lookup and in the reply. -/
def fallback_case (links amap : List (String × String))
    (score : String → String → ℚ) (session_id user_input : String)
    (session : Option String) (store1 : Store) : ChatOut :=
  let user_country_input :=
    normalize_country_alias amap (pyLower (pyStrip user_input))
  let country :=
    if keyMem links user_country_input then user_country_input
    else get_closest_country_name amap links score user_input
  if was_corrected amap user_input country then
    ⟨session_id, .fallbackConfirm country,
      update_doc_type store1 session_id "visa"⟩
  else if !(is_supported_country country) then
    ⟨session_id, .fallbackNotServiced country,
      reset_session store1 session_id⟩
  else
    match truthyOpt (get_link links country session) with
    | some link =>
      ⟨session_id, .fallbackLink session country link,
        reset_session store1 session_id⟩
    | none =>
      ⟨session_id, .fallbackNoLink session country,
        reset_session store1 session_id⟩

/-- Branches 5-7 of `chat_response` (after the keyword fast paths). -/
def chat_tail (links amap : List (String × String))
    (score : String → String → ℚ) (llmRes : IntentResult)
    (session_id user_input : String) (session : Option String)
    (store1 : Store) : ChatOut :=
  if llmRes.intent == "visa" && pyTruthy llmRes.country then
    llm_visa_case links amap score session_id (llmRes.country.getD "") store1
  else if !(pyTruthy session) then topic_prompt_case llmRes session_id store1
  else fallback_case links amap score session_id user_input session store1

/-- The `/chat` handler `chat_response` from src/vp_bot.py.  `llmRes` is the
value `query_intent_and_country` returns for this message (the wrapper is
modelled separately), `freshId` the `uuid.uuid4()` value, and `score` the
rapidfuzz scorer. -/
def chat_response (links amap : List (String × String))
    (score : String → String → ℚ) (llmRes : IntentResult) (freshId : String)
    (input_sid : Option String) (input_message : String)
    (store0 : Store) : ChatOut :=
  let user_input := pyStrip input_message
  let sidStore := get_or_create_session store0 input_sid freshId
  let session_id := sidStore.1
  let store1 := sidStore.2
  let session := get_session store1 session_id
  let lower_input := pyStrip (pyLower user_input)
  if GREETINGS.contains lower_input then ⟨session_id, .greeting, store1⟩
  else if smallTalkPhrases.contains lower_input then
    ⟨session_id, .closing, store1⟩
  else if sidBlank input_sid && startPhrases.contains lower_input then
    ⟨session_id, .startHello, store1⟩
  else if pyContains "passport" lower_input then
    ⟨session_id, .passportOptions,
      update_doc_type store1 session_id "passport"⟩
  else
    match (if pyContains "visa" lower_input then
        (links.map Prod.fst).find? (fun k => pyContains k lower_input)
      else none) with
    | some country_key =>
      fast_visa_case links session_id country_key store1
    | none =>
      chat_tail links amap score llmRes session_id user_input session store1

/-!
### Helper lemmas
-/

/-- `Char.ofNat` evaluates to the given code point when it is valid. -/
theorem toNat_ofNat_valid (n : Nat) (h : n.isValidChar) :
    (Char.ofNat n).toNat = n := by
  unfold Char.ofNat
  rw [dif_pos h]
  rfl

/-- A character outside the upper-case ASCII range is fixed by
`Char.toLower`. -/
theorem toLower_eq_self (d : Char) (h : ¬(65 ≤ d.toNat ∧ d.toNat ≤ 90)) :
    d.toLower = d := by
  simp only [Char.toLower]
  rw [if_neg h]

/-- `Char.toLower` is idempotent. -/
theorem toLower_toLower (c : Char) : c.toLower.toLower = c.toLower := by
  by_cases h : 65 ≤ c.toNat ∧ c.toNat ≤ 90
  · have h1 : c.toLower = Char.ofNat (c.toNat + 32) := by
      simp only [Char.toLower]
      rw [if_pos h]
    have hv : (c.toNat + 32).isValidChar := Or.inl (by omega)
    have h2 : c.toLower.toNat = c.toNat + 32 := by
      rw [h1]; exact toNat_ofNat_valid _ hv
    exact toLower_eq_self _ (by omega)
  · rw [toLower_eq_self c h]
    exact toLower_eq_self c h

/-- `pyLower` is idempotent. -/
theorem pyLower_pyLower (s : String) : pyLower (pyLower s) = pyLower s := by
  simp only [pyLower, List.map_map]
  exact congrArg String.mk
    (List.map_congr_left (fun c _ => toLower_toLower c))

/-- Overwriting the entry for a present key makes it the found entry. -/
theorem find_map_overwrite (session_id : String) (v : Option String) :
    ∀ l : List (String × Option String),
      (l.find? (fun p => p.1 == session_id)).isSome = true →
      ((l.map (fun p => if p.1 == session_id then (p.1, v) else p)).find?
        (fun p => p.1 == session_id)) = some (session_id, v) := by
  intro l
  induction l with
  | nil => intro h; simp at h
  | cons p rest ih =>
    intro h
    by_cases hp : (p.1 == session_id) = true
    · have he : p.1 = session_id := eq_of_beq hp
      rw [List.map_cons, if_pos hp, he, List.find?_cons]
      simp
    · have hf : (p.1 == session_id) = false := by
        cases hb : (p.1 == session_id) with
        | true => exact absurd hb hp
        | false => rfl
      rw [List.find?_cons, hf] at h
      rw [List.map_cons, if_neg hp, List.find?_cons, hf]
      exact ih h

/-- Appending an entry for an absent key makes it the found entry. -/
theorem find_append_new (session_id : String) (v : Option String)
    (l : List (String × Option String))
    (h : (l.find? (fun p => p.1 == session_id)).isSome = false) :
    ((l ++ [(session_id, v)]).find? (fun p => p.1 == session_id)) =
      some (session_id, v) := by
  rw [List.find?_append]
  have h0 : l.find? (fun p => p.1 == session_id) = none := by
    cases hf : l.find? (fun p => p.1 == session_id) with
    | none => rfl
    | some x => rw [hf] at h; simp at h
  rw [h0]
  simp

/-- Writing a session makes it readable back. -/
theorem lookupStore_storeSet_self (store : Store) (session_id : String)
    (v : Option String) :
    lookupStore (storeSet store session_id v) session_id = some v := by
  unfold storeSet
  by_cases h : (lookupStore store session_id).isSome = true
  · rw [if_pos h]
    unfold lookupStore at h ⊢
    rw [Option.isSome_map'] at h
    rw [find_map_overwrite session_id v store h]
    rfl
  · rw [if_neg h]
    unfold lookupStore at h ⊢
    have h2 : (store.find? (fun p => p.1 == session_id)).isSome = false := by
      rw [Option.isSome_map'] at h
      cases hb : (store.find? (fun p => p.1 == session_id)).isSome with
      | true => exact absurd hb h
      | false => rfl
    rw [find_append_new session_id v store h2]
    rfl

/-- A single step of the `extractOne` fold. -/
def extractStep (score : String → String → ℚ) (q : String) (cutoff : ℚ)
    (acc : Option (String × ℚ)) (o : String) : Option (String × ℚ) :=
  let s := score q o
  if cutoff ≤ s then
    match acc with
    | none => some (o, s)
    | some (b, sb) => if sb < s then some (o, s) else some (b, sb)
  else acc

/-- `extractOne` is its fold. -/
theorem extractOne_eq_foldl (score : String → String → ℚ) (q : String)
    (opts : List String) (cutoff : ℚ) :
    extractOne score q opts cutoff =
      opts.foldl (extractStep score q cutoff) none := rfl

/-- Options all under the cutoff leave the fold accumulator unchanged. -/
theorem extract_foldl_const (score : String → String → ℚ) (q : String)
    (cutoff : ℚ) :
    ∀ (l : List String) (acc : Option (String × ℚ)),
      (∀ o ∈ l, score q o < cutoff) →
      l.foldl (extractStep score q cutoff) acc = acc := by
  intro l
  induction l with
  | nil => intro acc _; rfl
  | cons o rest ih =>
    intro acc h
    have ho : score q o < cutoff := h o (List.mem_cons_self o rest)
    have hstep : extractStep score q cutoff acc o = acc := by
      unfold extractStep
      rw [if_neg (not_le.mpr ho)]
    rw [List.foldl_cons, hstep]
    exact ih acc (fun x hx => h x (List.mem_cons_of_mem o hx))

/-- An option below the cutoff leaves the accumulator unchanged. -/
theorem extractStep_below (score : String → String → ℚ) (q : String)
    (cutoff : ℚ) (acc : Option (String × ℚ)) (o : String)
    (h : ¬cutoff ≤ score q o) :
    extractStep score q cutoff acc o = acc := by
  simp only [extractStep]
  rw [if_neg h]

/-- An option reaching the cutoff fills an empty accumulator. -/
theorem extractStep_none (score : String → String → ℚ) (q : String)
    (cutoff : ℚ) (o : String) (h : cutoff ≤ score q o) :
    extractStep score q cutoff none o = some (o, score q o) := by
  simp only [extractStep]
  rw [if_pos h]

/-- A strictly better option replaces the accumulator. -/
theorem extractStep_some_lt (score : String → String → ℚ) (q : String)
    (cutoff : ℚ) (o b1 : String) (s1 : ℚ) (h : cutoff ≤ score q o)
    (hlt : s1 < score q o) :
    extractStep score q cutoff (some (b1, s1)) o = some (o, score q o) := by
  simp only [extractStep]
  rw [if_pos h, if_pos hlt]

/-- A no-better option keeps the accumulator (first occurrence wins). -/
theorem extractStep_some_ge (score : String → String → ℚ) (q : String)
    (cutoff : ℚ) (o b1 : String) (s1 : ℚ) (h : cutoff ≤ score q o)
    (hlt : ¬s1 < score q o) :
    extractStep score q cutoff (some (b1, s1)) o = some (b1, s1) := by
  simp only [extractStep]
  rw [if_pos h, if_neg hlt]

/-- Full specification of the `extractOne` fold: a `some` result carries
its own score, reaches the cutoff, dominates every processed option and the
incoming accumulator, and comes from the list or the accumulator. -/
theorem extract_foldl_spec (score : String → String → ℚ) (q : String)
    (cutoff : ℚ) :
    ∀ (l : List String) (acc : Option (String × ℚ)),
      (∀ b0 s0, acc = some (b0, s0) → s0 = score q b0 ∧ cutoff ≤ s0) →
      ∀ b s, l.foldl (extractStep score q cutoff) acc = some (b, s) →
        s = score q b ∧ cutoff ≤ s ∧ (∀ o ∈ l, score q o ≤ s) ∧
        (∀ b0 s0, acc = some (b0, s0) → s0 ≤ s) ∧
        (b ∈ l ∨ ∃ s0, acc = some (b, s0)) := by
  intro l
  induction l with
  | nil =>
    intro acc hacc b s hfold
    simp only [List.foldl_nil] at hfold
    obtain ⟨h1, h2⟩ := hacc b s hfold
    refine ⟨h1, h2, by simp, ?_, Or.inr ⟨s, hfold⟩⟩
    intro b0 s0 h0
    rw [hfold] at h0
    simp only [Option.some.injEq, Prod.mk.injEq] at h0
    exact h0.2.ge
  | cons o rest ih =>
    intro acc hacc b s hfold
    rw [List.foldl_cons] at hfold
    by_cases hc : cutoff ≤ score q o
    · have haccnew : ∀ b0 s0,
          (some (o, score q o) : Option (String × ℚ)) = some (b0, s0) →
          s0 = score q b0 ∧ cutoff ≤ s0 := by
        intro b0 s0 h0
        simp only [Option.some.injEq, Prod.mk.injEq] at h0
        obtain ⟨hb, hs⟩ := h0
        subst hb
        subst hs
        exact ⟨rfl, hc⟩
      rcases hm : acc with _ | ⟨b1, s1⟩
      · subst hm
        rw [extractStep_none score q cutoff o hc] at hfold
        obtain ⟨h1, h2, h3, h4, h5⟩ := ih _ haccnew b s hfold
        refine ⟨h1, h2, ?_, ?_, ?_⟩
        · intro x hx
          rcases List.mem_cons.mp hx with hx | hx
          · rw [hx]
            exact h4 o (score q o) rfl
          · exact h3 x hx
        · intro b0 s0 h0
          simp at h0
        · rcases h5 with h5 | ⟨s0, h5⟩
          · exact Or.inl (List.mem_cons_of_mem o h5)
          · simp only [Option.some.injEq, Prod.mk.injEq] at h5
            exact Or.inl (h5.1 ▸ List.mem_cons_self o rest)
      · subst hm
        obtain ⟨hs1, hc1⟩ := hacc b1 s1 rfl
        by_cases hlt : s1 < score q o
        · rw [extractStep_some_lt score q cutoff o b1 s1 hc hlt] at hfold
          obtain ⟨h1, h2, h3, h4, h5⟩ := ih _ haccnew b s hfold
          refine ⟨h1, h2, ?_, ?_, ?_⟩
          · intro x hx
            rcases List.mem_cons.mp hx with hx | hx
            · rw [hx]
              exact h4 o (score q o) rfl
            · exact h3 x hx
          · intro b0 s0 h0
            simp only [Option.some.injEq, Prod.mk.injEq] at h0
            have hqo : score q o ≤ s := h4 o (score q o) rfl
            calc s0 = s1 := h0.2.symm
              _ ≤ score q o := le_of_lt hlt
              _ ≤ s := hqo
          · rcases h5 with h5 | ⟨s0, h5⟩
            · exact Or.inl (List.mem_cons_of_mem o h5)
            · simp only [Option.some.injEq, Prod.mk.injEq] at h5
              exact Or.inl (h5.1 ▸ List.mem_cons_self o rest)
        · rw [extractStep_some_ge score q cutoff o b1 s1 hc hlt] at hfold
          obtain ⟨h1, h2, h3, h4, h5⟩ := ih _ hacc b s hfold
          refine ⟨h1, h2, ?_, h4, ?_⟩
          · intro x hx
            rcases List.mem_cons.mp hx with hx | hx
            · subst hx
              exact le_trans (not_lt.mp hlt) (h4 b1 s1 rfl)
            · exact h3 x hx
          · rcases h5 with h5 | h5
            · exact Or.inl (List.mem_cons_of_mem o h5)
            · exact Or.inr h5
    · rw [extractStep_below score q cutoff acc o hc] at hfold
      obtain ⟨h1, h2, h3, h4, h5⟩ := ih acc hacc b s hfold
      refine ⟨h1, h2, ?_, h4, ?_⟩
      · intro x hx
        rcases List.mem_cons.mp hx with hx | hx
        · subst hx
          exact le_trans (le_of_lt (not_le.mp hc)) h2
        · exact h3 x hx
      · rcases h5 with h5 | h5
        · exact Or.inl (List.mem_cons_of_mem o h5)
        · exact Or.inr h5

/-- A nonblank session id present in the store is kept by
`get_or_create_session` and the store is untouched. -/
theorem get_or_create_known (store0 : Store) (sid fresh : String)
    (hsid : (sid == "") = false)
    (hmem : (lookupStore store0 sid).isSome = true) :
    get_or_create_session store0 (some sid) fresh = (sid, store0) := by
  have hcond : (sid == "" || (lookupStore store0 sid).isNone) = false := by
    rw [hsid]
    cases h : lookupStore store0 sid with
    | none => rw [h] at hmem; simp at hmem
    | some v => rfl
  show (if (sid == "" || (lookupStore store0 sid).isNone) = true then
      (fresh, storeSet store0 fresh none)
    else (sid, store0)) = (sid, store0)
  rw [if_neg (by rw [hcond]; simp)]

/-- An absent, blank, or unknown session id makes `get_or_create_session`
bind a fresh session with no document type under the fresh id. -/
theorem get_or_create_fresh (store0 : Store) (input_sid : Option String)
    (fresh : String)
    (h : input_sid = none ∨ ∃ s, input_sid = some s ∧
      ((s == "") = true ∨ lookupStore store0 s = none)) :
    get_or_create_session store0 input_sid fresh =
      (fresh, storeSet store0 fresh none) := by
  rcases h with h | ⟨s, hs, h⟩
  · subst h; rfl
  · subst hs
    show (if (s == "" || (lookupStore store0 s).isNone) = true then
        (fresh, storeSet store0 fresh none)
      else (s, store0)) = (fresh, storeSet store0 fresh none)
    rcases h with h | h
    · rw [if_pos (by rw [h]; rfl)]
    · rw [if_pos (by rw [h]; simp)]

/-- The fast visa path echoes the id and only rewrites its own session. -/
theorem fast_visa_case_cases (links : List (String × String))
    (sid k : String) (store1 : Store) :
    (fast_visa_case links sid k store1).session_id = sid
    ∧ ∃ v, (fast_visa_case links sid k store1).store =
        storeSet store1 sid v := by
  unfold fast_visa_case
  split
  · exact ⟨rfl, none, rfl⟩
  · split
    · exact ⟨rfl, none, rfl⟩
    · exact ⟨rfl, none, rfl⟩

/-- The hinted-visa branch echoes the id and only rewrites its session. -/
theorem llm_visa_case_cases (links amap : List (String × String))
    (score : String → String → ℚ) (sid cr : String) (store1 : Store) :
    (llm_visa_case links amap score sid cr store1).session_id = sid
    ∧ ∃ v, (llm_visa_case links amap score sid cr store1).store =
        storeSet store1 sid v := by
  simp only [llm_visa_case]
  repeat' split
  all_goals
    first
      | exact ⟨rfl, some "visa", rfl⟩
      | exact ⟨rfl, none, rfl⟩

/-- The ask-for-topic branch echoes the id and touches at most its own
session. -/
theorem topic_prompt_case_cases (llmRes : IntentResult) (sid : String)
    (store1 : Store) :
    (topic_prompt_case llmRes sid store1).session_id = sid
    ∧ ((topic_prompt_case llmRes sid store1).store = store1
      ∨ ∃ v, (topic_prompt_case llmRes sid store1).store =
          storeSet store1 sid v) := by
  unfold topic_prompt_case
  split
  · exact ⟨rfl, Or.inr ⟨some "passport", rfl⟩⟩
  · split
    · exact ⟨rfl, Or.inr ⟨some "visa", rfl⟩⟩
    · exact ⟨rfl, Or.inl rfl⟩

/-- The fallback branch echoes the id and only rewrites its session. -/
theorem fallback_case_cases (links amap : List (String × String))
    (score : String → String → ℚ) (sid ui : String)
    (session : Option String) (store1 : Store) :
    (fallback_case links amap score sid ui session store1).session_id = sid
    ∧ ∃ v, (fallback_case links amap score sid ui session store1).store =
        storeSet store1 sid v := by
  simp only [fallback_case]
  repeat' split
  all_goals
    first
      | exact ⟨rfl, some "visa", rfl⟩
      | exact ⟨rfl, none, rfl⟩

/-- The post-fast-path dispatch echoes the id and touches at most its own
session. -/
theorem chat_tail_cases (links amap : List (String × String))
    (score : String → String → ℚ) (llmRes : IntentResult) (sid ui : String)
    (session : Option String) (store1 : Store) :
    (chat_tail links amap score llmRes sid ui session store1).session_id =
      sid
    ∧ ((chat_tail links amap score llmRes sid ui session store1).store =
        store1
      ∨ ∃ v, (chat_tail links amap score llmRes sid ui session
          store1).store = storeSet store1 sid v) := by
  unfold chat_tail
  split
  · obtain ⟨h1, v, h2⟩ :=
      llm_visa_case_cases links amap score sid (llmRes.country.getD "") store1
    exact ⟨h1, Or.inr ⟨v, h2⟩⟩
  · split
    · exact topic_prompt_case_cases llmRes sid store1
    · obtain ⟨h1, v, h2⟩ :=
        fallback_case_cases links amap score sid ui session store1
      exact ⟨h1, Or.inr ⟨v, h2⟩⟩

/-- Every branch of `chat_response` echoes the id chosen by
`get_or_create_session` and leaves the store either untouched or rewritten
at exactly that id. -/
theorem chat_response_cases (links amap : List (String × String))
    (score : String → String → ℚ) (llmRes : IntentResult) (freshId : String)
    (input_sid : Option String) (msg : String) (store0 : Store) :
    (chat_response links amap score llmRes freshId input_sid msg
      store0).session_id = (get_or_create_session store0 input_sid freshId).1
    ∧ ((chat_response links amap score llmRes freshId input_sid msg
          store0).store = (get_or_create_session store0 input_sid freshId).2
      ∨ ∃ v, (chat_response links amap score llmRes freshId input_sid msg
          store0).store =
        storeSet (get_or_create_session store0 input_sid freshId).2
          (get_or_create_session store0 input_sid freshId).1 v) := by
  simp only [chat_response]
  repeat' split
  all_goals
    first
      | exact ⟨rfl, Or.inl rfl⟩
      | exact ⟨rfl, Or.inr ⟨_, rfl⟩⟩
      | (obtain ⟨h1, v, h2⟩ := fast_visa_case_cases links _ _ _
         exact ⟨h1, Or.inr ⟨v, h2⟩⟩)
      | exact chat_tail_cases links amap score llmRes _ _ _ _

/-!
### Claim theorems
-/

/-- C1: once the exact-match and token-match steps have both missed, the
fuzzy step of `get_closest_country_name` accepts only the single
best-scoring candidate drawn from the union of link-registry and alias-map
keys whose similarity score reaches the cutoff 88, alias-resolving it
before returning; and when no candidate scores at least 88 the resolver
returns the normalized input phrase unchanged. -/
theorem C1_fuzzy_gate (amap links : List (String × String))
    (score : String → String → ℚ) (input_country : String)
    (hexact :
      keyMem links (normalize_country_alias amap input_country) = false)
    (htoken :
      token_pass amap links (normalize_country_alias amap input_country) =
        none) :
    ((∀ o ∈ all_options links amap,
        score (normalize_country_alias amap input_country) o < 88) →
      get_closest_country_name amap links score input_country =
        normalize_country_alias amap input_country)
    ∧ (∀ b s,
        extractOne score (normalize_country_alias amap input_country)
          (all_options links amap) 88 = some (b, s) →
        get_closest_country_name amap links score input_country =
          aliasGetD amap b
        ∧ 88 ≤ s
        ∧ s = score (normalize_country_alias amap input_country) b
        ∧ b ∈ all_options links amap
        ∧ ∀ o ∈ all_options links amap,
            score (normalize_country_alias amap input_country) o ≤ s) := by
  have hdef : get_closest_country_name amap links score input_country =
      (if keyMem links (normalize_country_alias amap input_country) then
        normalize_country_alias amap input_country
      else
        match token_pass amap links
            (normalize_country_alias amap input_country) with
        | some r => r
        | none =>
          match extractOne score (normalize_country_alias amap input_country)
              (all_options links amap) 88 with
          | some res => aliasGetD amap res.1
          | none => normalize_country_alias amap input_country) := rfl
  have hcond :
      ¬(keyMem links (normalize_country_alias amap input_country) = true) :=
    by rw [hexact]; simp
  rw [hdef, if_neg hcond, htoken]
  constructor
  · intro hall
    have hnone : extractOne score (normalize_country_alias amap input_country)
        (all_options links amap) 88 = none := by
      rw [extractOne_eq_foldl]
      exact extract_foldl_const score
        (normalize_country_alias amap input_country) 88
        (all_options links amap) none hall
    rw [hnone]
  · intro b s hex
    have hspec := extract_foldl_spec score
      (normalize_country_alias amap input_country) 88
      (all_options links amap) none
      (by intro b0 s0 h0; exact absurd h0 (by simp)) b s
      (by rw [← extractOne_eq_foldl]; exact hex)
    obtain ⟨h1, h2, h3, _, h5⟩ := hspec
    rw [hex]
    refine ⟨rfl, h2, h1, ?_, h3⟩
    rcases h5 with h5 | ⟨s0, h5⟩
    · exact h5
    · exact absurd h5 (by simp)

/-- C1 witness: with empty registries the exact and token steps miss, no
fuzzy candidate exists, and the garbage phrase comes back normalized but
otherwise unchanged. -/
theorem C1_fuzzy_gate_witness :
    get_closest_country_name [] [] (fun _ _ => 0) "qq" = "qq" := by
  have h := C1_fuzzy_gate [] [] (fun _ _ => 0) "qq" (by decide) (by decide)
  have h2 := h.1 (by
    intro o ho
    rw [show all_options [] [] = ([] : List String) from rfl] at ho
    exact absurd ho (List.not_mem_nil o))
  rw [h2]
  decide

/-- C2 counterexample: the normalizer strips only one filler prefix per
call, so with an empty alias table "to to x" normalizes to "to x" but
renormalizes to "x", refuting idempotence; moreover the filler-only input
"to" normalizes to itself, not to the empty string (the regex demands
trailing whitespace after the filler word). -/
theorem C2_not_idempotent_cex :
    normalize_country_alias [] (normalize_country_alias [] "to to x") ≠
      normalize_country_alias [] "to to x"
    ∧ normalize_country_alias [] "to" = "to" := by
  constructor
  · decide
  · decide

/-- C2 amended: the normalizer is a total function (no exceptions), the
empty input normalizes to the empty string (the alias table never has an
empty key, as the loader skips blank rows), and idempotence holds whenever
the normalized form is a fixpoint of a second strip/lower/filler pass and
the alias table does not redirect it — i.e. it is not an alias key, or it
is an identity alias mapping to itself; filler-only inputs such as "to"
are such fixpoints rather than the empty string. -/
theorem C2_normalize_idempotent_amended (amap : List (String × String))
    (x : String)
    (h1 : preprocess_input
        (pyLower (pyStrip (normalize_country_alias amap x))) =
      normalize_country_alias amap x)
    (h2 : lookupV amap (normalize_country_alias amap x) = none ∨
      lookupV amap (normalize_country_alias amap x) =
        some (normalize_country_alias amap x))
    (h3 : lookupV amap "" = none) :
    normalize_country_alias amap (normalize_country_alias amap x) =
      normalize_country_alias amap x
    ∧ normalize_country_alias amap "" = "" := by
  constructor
  · show aliasGetD amap
      (preprocess_input (pyLower (pyStrip (normalize_country_alias amap x))))
      = _
    rw [h1]
    unfold aliasGetD
    rcases h2 with h2 | h2
    · rw [h2]
      rfl
    · rw [h2]
      rfl
  · show aliasGetD amap (preprocess_input (pyLower (pyStrip ""))) = ""
    have he : preprocess_input (pyLower (pyStrip "")) = "" := by decide
    rw [he]
    unfold aliasGetD
    rw [h3]
    rfl

/-- C2 amended witness: one input whose normalized form is not an alias
key, and one whose normalized form is an identity alias key mapping to
itself — idempotence holds at both. -/
theorem C2_normalize_idempotent_amended_witness :
    (normalize_country_alias []
        (normalize_country_alias [] "visa for india") =
      normalize_country_alias [] "visa for india"
    ∧ normalize_country_alias [] "" = "")
    ∧ (normalize_country_alias [("united kingdom", "united kingdom")]
        (normalize_country_alias [("united kingdom", "united kingdom")]
          "united kingdom") =
      normalize_country_alias [("united kingdom", "united kingdom")]
        "united kingdom"
    ∧ normalize_country_alias [("united kingdom", "united kingdom")] "" =
        "") :=
  ⟨C2_normalize_idempotent_amended [] "visa for india" (by decide)
      (Or.inl (by decide)) (by decide),
    C2_normalize_idempotent_amended [("united kingdom", "united kingdom")]
      "united kingdom" (by decide) (Or.inr (by decide)) (by decide)⟩

/-- C3 counterexample: a "passport" turn on an existing empty session ends
with the stored document type equal to passport, not reset to none — the
passport branch calls only `update_doc_type` and never `reset_session`. -/
theorem C3_passport_reset_cex :
    (chat_response [] [] (fun _ _ => (0 : ℚ)) ⟨"unknown", none⟩ "fresh"
      (some "s") "passport" [("s", none)]).reply = Reply.passportOptions
    ∧ lookupStore (chat_response [] [] (fun _ _ => (0 : ℚ)) ⟨"unknown", none⟩
        "fresh" (some "s") "passport" [("s", none)]).store "s" =
      some (some "passport")
    ∧ some "passport" ≠ (none : Option String) := by
  refine ⟨by decide, by decide, by decide⟩

/-- C3 amended: a turn whose message contains "passport" (and hits no
earlier greeting/small-talk/start fast path) returns the fixed passport
options reply and sets the session's document type to passport, which is
the state left after the turn — the code performs no reset back to none on
this branch. -/
theorem C3_passport_branch_amended (links amap : List (String × String))
    (score : String → String → ℚ) (llmRes : IntentResult) (freshId : String)
    (input_sid : Option String) (msg : String) (store0 : Store)
    (hg : GREETINGS.contains (pyStrip (pyLower (pyStrip msg))) = false)
    (hsm : smallTalkPhrases.contains (pyStrip (pyLower (pyStrip msg))) =
      false)
    (hst : startPhrases.contains (pyStrip (pyLower (pyStrip msg))) = false)
    (hp : pyContains "passport" (pyStrip (pyLower (pyStrip msg))) = true) :
    (chat_response links amap score llmRes freshId input_sid msg
      store0).reply = Reply.passportOptions
    ∧ lookupStore
        (chat_response links amap score llmRes freshId input_sid msg
          store0).store
        (chat_response links amap score llmRes freshId input_sid msg
          store0).session_id = some (some "passport") := by
  simp only [chat_response, hg, hsm, hst, hp, Bool.and_false,
    Bool.false_eq_true, if_false, if_true]
  constructor
  · trivial
  · exact lookupStore_storeSet_self _ _ _

/-- C3 amended witness: the literal "passport" message on a known session.
-/
theorem C3_passport_branch_amended_witness :
    (chat_response [] [] (fun _ _ => (0 : ℚ)) ⟨"unknown", none⟩ "fresh"
      (some "t") "passport" [("t", none)]).reply = Reply.passportOptions
    ∧ lookupStore (chat_response [] [] (fun _ _ => (0 : ℚ)) ⟨"unknown", none⟩
        "fresh" (some "t") "passport" [("t", none)]).store
        (chat_response [] [] (fun _ _ => (0 : ℚ)) ⟨"unknown", none⟩ "fresh"
          (some "t") "passport" [("t", none)]).session_id =
      some (some "passport") :=
  C3_passport_branch_amended [] [] (fun _ _ => (0 : ℚ)) ⟨"unknown", none⟩
    "fresh" (some "t") "passport" [("t", none)] (by decide) (by decide)
    (by decide) (by decide)

/-- C4 counterexample: for the alias uk -> united kingdom the pre-alias
normalized phrase "uk" differs from the canonical name, yet
`was_corrected` is false — the code compares the post-alias normalized
phrase, so the claim's pre-alias "iff" is refuted (its "in particular"
sentence matches the code, its "iff" does not). -/
theorem C4_was_corrected_cex :
    preprocess_input (pyLower (pyStrip "uk")) = "uk"
    ∧ ("uk" : String) ≠ "united kingdom"
    ∧ was_corrected [("uk", "united kingdom")] "uk" "united kingdom" =
        false := by
  refine ⟨by decide, by decide, by decide⟩

/-- C4 amended: for an alias entry a -> c whose key is clean (lowercase,
stripped, filler-free) and whose canonical c is a lowercase link-registry
key, resolution returns c, and `was_corrected` is true exactly when the
alias-resolved (post-alias) normalized phrase differs from the lowercased
match — so a resolution that succeeds by alias lookup alone yields
`was_corrected = false`. -/
theorem C4_alias_resolution_amended (amap links : List (String × String))
    (score : String → String → ℚ) (a c : String)
    (ha : preprocess_input (pyLower (pyStrip a)) = a)
    (hal : pyLower (pyStrip a) = a)
    (hac : lookupV amap a = some c)
    (hc : keyMem links c = true)
    (hcl : pyLower (pyStrip c) = c) :
    normalize_country_alias amap a = c
    ∧ (if keyMem links (normalize_country_alias amap a) then
        normalize_country_alias amap a
      else get_closest_country_name amap links score
        (normalize_country_alias amap a)) = c
    ∧ was_corrected amap a c = false
    ∧ (∀ x m, was_corrected amap x m = true ↔
        normalize_country_alias amap (pyLower (pyStrip x)) ≠
          pyLower (pyStrip m)) := by
  have h1 : normalize_country_alias amap a = c := by
    show aliasGetD amap (preprocess_input (pyLower (pyStrip a))) = c
    rw [ha]
    unfold aliasGetD
    rw [hac]
    rfl
  refine ⟨h1, ?_, ?_, ?_⟩
  · rw [h1, if_pos hc]
  · unfold was_corrected
    rw [hal, hcl, h1]
    simp
  · intro x m
    unfold was_corrected
    exact bne_iff_ne

/-- C4 amended witness on the uk alias with a linked canonical country. -/
theorem C4_alias_resolution_amended_witness :
    normalize_country_alias [("uk", "united kingdom")] "uk" =
      "united kingdom"
    ∧ was_corrected [("uk", "united kingdom")] "uk" "united kingdom" =
        false := by
  have h := C4_alias_resolution_amended [("uk", "united kingdom")]
    [("united kingdom", "https://visa.example/uk")] (fun _ _ => (0 : ℚ))
    "uk" "united kingdom" (by decide) (by decide) (by decide) (by decide)
    (by decide)
  exact ⟨h.1, h.2.2.1⟩

/-- C5: the support gate runs before the link lookup and independently of
link presence — when the fast visa path matches a registry key belonging
to the unsupported set (a key that by construction has a registry entry),
the reply is the not-serviced apology and in particular never the no-link
apology; and `is_supported_country` is a case-insensitive membership test
that holds unless the country is explicitly excluded. -/
theorem C5_support_gate (links amap : List (String × String))
    (score : String → String → ℚ) (llmRes : IntentResult) (freshId : String)
    (input_sid : Option String) (msg : String) (store0 : Store) (k : String)
    (hg : GREETINGS.contains (pyStrip (pyLower (pyStrip msg))) = false)
    (hsm : smallTalkPhrases.contains (pyStrip (pyLower (pyStrip msg))) =
      false)
    (hst : startPhrases.contains (pyStrip (pyLower (pyStrip msg))) = false)
    (hp : pyContains "passport" (pyStrip (pyLower (pyStrip msg))) = false)
    (hv : pyContains "visa" (pyStrip (pyLower (pyStrip msg))) = true)
    (hfind : (links.map Prod.fst).find?
        (fun key => pyContains key (pyStrip (pyLower (pyStrip msg)))) =
      some k)
    (hu : unsupported_countries.contains (pyLower k) = true) :
    (chat_response links amap score llmRes freshId input_sid msg
      store0).reply = Reply.fastNotServiced k
    ∧ (∀ c, is_supported_country (pyLower c) = is_supported_country c)
    ∧ (∀ c, is_supported_country c = true ↔
        unsupported_countries.contains (pyLower c) = false) := by
  refine ⟨?_, ?_, ?_⟩
  · have hsup : is_supported_country k = false := by
      unfold is_supported_country
      rw [hu]
      rfl
    simp only [chat_response, hg, hsm, hst, hp, hv, hfind, Bool.and_false,
      Bool.false_eq_true, if_false, if_true]
    simp only [fast_visa_case, hsup, Bool.not_false, if_true]
  · intro c
    unfold is_supported_country
    rw [pyLower_pyLower]
  · intro c
    unfold is_supported_country
    cases h : unsupported_countries.contains (pyLower c) <;> simp [h]

/-- C5 witness: Scenario 4 — "visa for chad" with chad both in the link
registry and in the unsupported set is answered with the not-serviced
apology. -/
theorem C5_support_gate_witness :
    (chat_response [("chad", "https://visa.example/td")] []
      (fun _ _ => (0 : ℚ)) ⟨"unknown", none⟩ "fresh" (some "s")
      "visa for chad" [("s", none)]).reply = Reply.fastNotServiced "chad"
    ∧ is_supported_country "Chad" = false := by
  have h := C5_support_gate [("chad", "https://visa.example/td")] []
    (fun _ _ => (0 : ℚ)) ⟨"unknown", none⟩ "fresh" (some "s")
    "visa for chad" [("s", none)] "chad" (by decide) (by decide) (by decide)
    (by decide) (by decide) (by decide) (by decide)
  refine ⟨h.1, ?_⟩
  have h3 := h.2.2 "Chad"
  cases hb : is_supported_country "Chad" with
  | false => rfl
  | true => exact absurd (h3.mp hb) (by decide)

/-- C6: a clean canonical country name with a stored link resolves to
itself through the exact-match step — for every scorer, so before the
token and fuzzy strategies can act — the link lookup for the visa document
type returns its stored link, and `was_corrected` is false. -/
theorem C6_exact_match (amap links : List (String × String))
    (score : String → String → ℚ) (c link : String)
    (hl : lookupV links c = some link)
    (hpre : preprocess_input (pyLower (pyStrip c)) = c)
    (hcl : pyLower (pyStrip c) = c)
    (hna : lookupV amap c = none)
    (hsupp : unsupported_countries.contains (pyLower c) = false) :
    get_closest_country_name amap links score c = c
    ∧ get_link links c (some "visa") = some link
    ∧ was_corrected amap c c = false
    ∧ is_supported_country c = true := by
  have hnorm : normalize_country_alias amap c = c := by
    show aliasGetD amap (preprocess_input (pyLower (pyStrip c))) = c
    rw [hpre]
    unfold aliasGetD
    rw [hna]
    rfl
  have hmem : keyMem links c = true := by
    unfold keyMem lookupV at *
    rw [hl]
    rfl
  refine ⟨?_, ?_, ?_, ?_⟩
  · have hdef : get_closest_country_name amap links score c =
        (if keyMem links (normalize_country_alias amap c) then
          normalize_country_alias amap c
        else
          match token_pass amap links (normalize_country_alias amap c) with
          | some r => r
          | none =>
            match extractOne score (normalize_country_alias amap c)
                (all_options links amap) 88 with
            | some res => aliasGetD amap res.1
            | none => normalize_country_alias amap c) := rfl
    rw [hdef, hnorm, if_pos hmem]
  · have : get_link links c (some "visa") = lookupV links c := rfl
    rw [this, hl]
  · unfold was_corrected
    rw [hcl, hnorm]
    simp
  · unfold is_supported_country
    rw [hsupp]
    rfl

/-- C6 witness on a one-entry registry. -/
theorem C6_exact_match_witness :
    get_closest_country_name [] [("india", "https://visa.example/ind")]
      (fun _ _ => (0 : ℚ)) "india" = "india"
    ∧ get_link [("india", "https://visa.example/ind")] "india"
        (some "visa") = some "https://visa.example/ind"
    ∧ was_corrected [] "india" "india" = false := by
  have h := C6_exact_match [] [("india", "https://visa.example/ind")]
    (fun _ _ => (0 : ℚ)) "india" "https://visa.example/ind" (by decide)
    (by decide) (by decide) (by decide) (by decide)
  exact ⟨h.1, h.2.1, h.2.2.1⟩

/-- The validated intent always lies in the allowed three-element set. -/
theorem validate_intent_mem (i : String) :
    validate_intent i = "visa" ∨ validate_intent i = "passport" ∨
      validate_intent i = "unknown" := by
  unfold validate_intent
  by_cases h : (i == "visa" || i == "passport" || i == "unknown") = true
  · rw [if_pos h]
    simp only [Bool.or_eq_true, beq_iff_eq] at h
    rcases h with (h | h) | h
    · exact Or.inl h
    · exact Or.inr (Or.inl h)
    · exact Or.inr (Or.inr h)
  · rw [if_neg h]
    exact Or.inr (Or.inr rfl)

/-- C7: the intent-hint wrapper only ever reports visa, passport, or
unknown; a transport error (connection failure or timeout), an empty
extracted output, and a non-JSON response each yield exactly the unknown
result with no country, and the wrapper is a total function, so no failure
propagates; with that unknown result (and no applicable fast path) the
engine's turn falls back to asking whether a visa or a passport is wanted.
-/
theorem C7_intent_wrapper (amap : List (String × String))
    (parse : String → Option ParsedIC) (tr : LLMTransport)
    (prompt : String) :
    ((query_intent_and_country amap parse tr prompt).intent = "visa"
      ∨ (query_intent_and_country amap parse tr prompt).intent = "passport"
      ∨ (query_intent_and_country amap parse tr prompt).intent = "unknown")
    ∧ (tr = LLMTransport.reqError →
        query_intent_and_country amap parse tr prompt = ⟨"unknown", none⟩)
    ∧ (∀ raw, tr = LLMTransport.body raw → cleanRawOutput raw = "" →
        query_intent_and_country amap parse tr prompt = ⟨"unknown", none⟩)
    ∧ (∀ raw, tr = LLMTransport.body raw →
        parse (cleanRawOutput raw) = none →
        query_intent_and_country amap parse tr prompt = ⟨"unknown", none⟩)
    ∧ (∀ (links : List (String × String)) (score : String → String → ℚ)
        (freshId sid msg : String) (store0 : Store),
        GREETINGS.contains (pyStrip (pyLower (pyStrip msg))) = false →
        smallTalkPhrases.contains (pyStrip (pyLower (pyStrip msg))) =
          false →
        startPhrases.contains (pyStrip (pyLower (pyStrip msg))) = false →
        pyContains "passport" (pyStrip (pyLower (pyStrip msg))) = false →
        (if pyContains "visa" (pyStrip (pyLower (pyStrip msg))) = true then
          (links.map Prod.fst).find?
            (fun k => pyContains k (pyStrip (pyLower (pyStrip msg))))
        else none) = none →
        (sid == "") = false →
        lookupStore store0 sid = some none →
        (chat_response links amap score ⟨"unknown", none⟩ freshId (some sid)
          msg store0).reply = Reply.askVisaOrPassport) := by
  refine ⟨?_, ?_, ?_, ?_, ?_⟩
  · unfold query_intent_and_country
    repeat' split
    all_goals
      first
        | exact Or.inr (Or.inr rfl)
        | exact validate_intent_mem _
  · intro htr
    subst htr
    simp only [query_intent_and_country]
    split
    · rfl
    · rfl
  · intro raw htr hempty
    subst htr
    have hb : (cleanRawOutput raw == "") = true := by rw [hempty]; decide
    simp only [query_intent_and_country, hb, eq_self_iff_true, if_true]
    split <;> rfl
  · intro raw htr hparse
    subst htr
    simp only [query_intent_and_country, hparse]
    repeat' split
    all_goals rfl
  · intro links score freshId sid msg store0 hg hsm hst hp hv hsid hmem
    have hgoc := get_or_create_known store0 sid freshId hsid
      (by rw [hmem]; rfl)
    have hsess : get_session store0 sid = none := by
      unfold get_session
      rw [hmem]
      rfl
    have hguard : ((⟨"unknown", none⟩ : IntentResult).intent == "visa" &&
        pyTruthy (⟨"unknown", none⟩ : IntentResult).country) = false := rfl
    have hpass : ((⟨"unknown", none⟩ : IntentResult).intent == "passport") =
      false := rfl
    have hvis : ((⟨"unknown", none⟩ : IntentResult).intent == "visa") =
      false := rfl
    simp only [chat_response, hgoc, hg, hsm, hst, hp, hv, Bool.and_false,
      Bool.false_eq_true, if_false]
    simp only [chat_tail, hguard, hsess, Bool.false_eq_true, if_false]
    have hpt : pyTruthy (none : Option String) = false := rfl
    simp only [hpt, Bool.not_false, if_true]
    simp only [topic_prompt_case, hpass, hvis, Bool.false_eq_true, if_false]

/-- C7 witness: a timed-out transport degrades to the exact unknown
result. -/
theorem C7_intent_wrapper_witness :
    query_intent_and_country [] (fun _ => none) LLMTransport.reqError
      "where do i apply for a visa" = ⟨"unknown", none⟩ :=
  (C7_intent_wrapper [] (fun _ => none) LLMTransport.reqError
    "where do i apply for a visa").2.1 rfl

/-- C8: an absent, blank, or unknown session id makes the turn create a
fresh session with no document type under the freshly generated id, echo
that id back, and leave the echoed id bound in the store after the turn.
-/
theorem C8_session_creation (links amap : List (String × String))
    (score : String → String → ℚ) (llmRes : IntentResult) (freshId : String)
    (input_sid : Option String) (msg : String) (store0 : Store)
    (h : input_sid = none ∨ ∃ s, input_sid = some s ∧
      ((s == "") = true ∨ lookupStore store0 s = none)) :
    get_or_create_session store0 input_sid freshId =
      (freshId, storeSet store0 freshId none)
    ∧ lookupStore (storeSet store0 freshId none) freshId = some none
    ∧ (chat_response links amap score llmRes freshId input_sid msg
        store0).session_id = freshId
    ∧ (lookupStore
        (chat_response links amap score llmRes freshId input_sid msg
          store0).store
        (chat_response links amap score llmRes freshId input_sid msg
          store0).session_id).isSome = true := by
  have hgoc := get_or_create_fresh store0 input_sid freshId h
  obtain ⟨hcs1, hcs2⟩ :=
    chat_response_cases links amap score llmRes freshId input_sid msg store0
  have hsid : (chat_response links amap score llmRes freshId input_sid msg
      store0).session_id = freshId := by
    rw [hcs1, hgoc]
  refine ⟨hgoc, lookupStore_storeSet_self _ _ _, hsid, ?_⟩
  rcases hcs2 with h2 | ⟨v, h2⟩
  · rw [hsid, h2, hgoc]
    simp [lookupStore_storeSet_self]
  · rw [hsid, h2, hgoc]
    simp [lookupStore_storeSet_self]

/-- C8 witness: a turn with no session id echoes the generated id, which is
bound in the store after the turn. -/
theorem C8_session_creation_witness :
    (chat_response [] [] (fun _ _ => (0 : ℚ)) ⟨"unknown", none⟩ "fresh9"
      none "hi" []).session_id = "fresh9"
    ∧ (lookupStore (chat_response [] [] (fun _ _ => (0 : ℚ))
        ⟨"unknown", none⟩ "fresh9" none "hi" []).store
        (chat_response [] [] (fun _ _ => (0 : ℚ)) ⟨"unknown", none⟩ "fresh9"
          none "hi" []).session_id).isSome = true := by
  have h := C8_session_creation [] [] (fun _ _ => (0 : ℚ)) ⟨"unknown", none⟩
    "fresh9" none "hi" [] (Or.inl rfl)
  exact ⟨h.2.2.1, h.2.2.2⟩

/-- C9: a turn on a known session whose message is exactly a greeting
phrase (or exactly a small-talk/closing phrase) returns the corresponding
fixed reply and leaves the whole session store — in particular the
session's document type — unchanged. -/
theorem C9_greeting_frame (links amap : List (String × String))
    (score : String → String → ℚ) (llmRes : IntentResult) (freshId : String)
    (sid msg : String) (store0 : Store)
    (hsid : (sid == "") = false)
    (hmem : (lookupStore store0 sid).isSome = true)
    (hg : GREETINGS.contains (pyStrip (pyLower (pyStrip msg))) = true ∨
      smallTalkPhrases.contains (pyStrip (pyLower (pyStrip msg))) = true) :
    (chat_response links amap score llmRes freshId (some sid) msg
      store0).store = store0
    ∧ (chat_response links amap score llmRes freshId (some sid) msg
        store0).session_id = sid
    ∧ (GREETINGS.contains (pyStrip (pyLower (pyStrip msg))) = true →
        (chat_response links amap score llmRes freshId (some sid) msg
          store0).reply = Reply.greeting)
    ∧ (GREETINGS.contains (pyStrip (pyLower (pyStrip msg))) = false →
        (chat_response links amap score llmRes freshId (some sid) msg
          store0).reply = Reply.closing) := by
  have hgoc := get_or_create_known store0 sid freshId hsid hmem
  by_cases hg2 : GREETINGS.contains (pyStrip (pyLower (pyStrip msg))) = true
  · have hout : chat_response links amap score llmRes freshId (some sid)
        msg store0 = ⟨sid, Reply.greeting, store0⟩ := by
      simp only [chat_response, hgoc, hg2, eq_self_iff_true, if_true]
    rw [hout]
    refine ⟨rfl, rfl, fun _ => rfl, ?_⟩
    intro hq
    rw [hq] at hg2
    simp at hg2
  · have hg3 : GREETINGS.contains (pyStrip (pyLower (pyStrip msg))) =
        false := by
      cases hb : GREETINGS.contains (pyStrip (pyLower (pyStrip msg))) with
      | true => exact absurd hb hg2
      | false => rfl
    have hsm2 : smallTalkPhrases.contains (pyStrip (pyLower (pyStrip msg)))
        = true := by
      rcases hg with hga | hgb
      · exact absurd hga hg2
      · exact hgb
    have hout : chat_response links amap score llmRes freshId (some sid)
        msg store0 = ⟨sid, Reply.closing, store0⟩ := by
      simp only [chat_response, hgoc, hg3, hsm2, Bool.false_eq_true,
        if_false, eq_self_iff_true, if_true]
    rw [hout]
    refine ⟨rfl, rfl, ?_, fun _ => rfl⟩
    intro hq
    rw [hq] at hg3
    simp at hg3

/-- C9 witness: the greeting "hi" and the closing "thanks" both leave a
visa-typed session untouched. -/
theorem C9_greeting_frame_witness :
    (chat_response [] [] (fun _ _ => (0 : ℚ)) ⟨"unknown", none⟩ "fresh"
      (some "s") "hi" [("s", some "visa")]).store = [("s", some "visa")]
    ∧ (chat_response [] [] (fun _ _ => (0 : ℚ)) ⟨"unknown", none⟩ "fresh"
        (some "s") "hi" [("s", some "visa")]).reply = Reply.greeting := by
  have h := C9_greeting_frame [] [] (fun _ _ => (0 : ℚ)) ⟨"unknown", none⟩
    "fresh" "s" "hi" [("s", some "visa")] (by decide) (by decide)
    (Or.inl (by decide))
  exact ⟨h.1, h.2.2.1 (by decide)⟩

/-- C10: `get_link` yields a link only for the visa document type (every
other stored value, including passport and the absent value, gets none);
hence a fallback turn on a session whose stored document type is passport
that resolves an uncorrected, supported country always answers with the
no-link apology and never with a stored link. -/
theorem C10_passport_no_link (links amap : List (String × String))
    (score : String → String → ℚ) (llmRes : IntentResult) (freshId : String)
    (sid msg : String) (store0 : Store)
    (hg : GREETINGS.contains (pyStrip (pyLower (pyStrip msg))) = false)
    (hsm : smallTalkPhrases.contains (pyStrip (pyLower (pyStrip msg))) =
      false)
    (hst : startPhrases.contains (pyStrip (pyLower (pyStrip msg))) = false)
    (hp : pyContains "passport" (pyStrip (pyLower (pyStrip msg))) = false)
    (hv : (if pyContains "visa" (pyStrip (pyLower (pyStrip msg))) = true
      then (links.map Prod.fst).find?
        (fun k => pyContains k (pyStrip (pyLower (pyStrip msg))))
      else none) = none)
    (hllm : (llmRes.intent == "visa" && pyTruthy llmRes.country) = false)
    (hsid : (sid == "") = false)
    (hmem : lookupStore store0 sid = some (some "passport"))
    (country : String)
    (hctry : country =
      (if keyMem links
          (normalize_country_alias amap (pyLower (pyStrip (pyStrip msg))))
        then normalize_country_alias amap (pyLower (pyStrip (pyStrip msg)))
        else get_closest_country_name amap links score (pyStrip msg)))
    (hwc : was_corrected amap (pyStrip msg) country = false)
    (hsupp : is_supported_country country = true) :
    (∀ (links2 : List (String × String)) (c : String) (dt : Option String),
        dt ≠ some "visa" → get_link links2 c dt = none)
    ∧ (chat_response links amap score llmRes freshId (some sid) msg
        store0).reply = Reply.fallbackNoLink (some "passport") country := by
  constructor
  · intro links2 c dt hdt
    unfold get_link
    rw [if_neg (fun hb => hdt (eq_of_beq hb))]
  · have hgoc := get_or_create_known store0 sid freshId hsid
      (by rw [hmem]; rfl)
    have hsess : get_session store0 sid = some "passport" := by
      unfold get_session
      rw [hmem]
      rfl
    simp only [chat_response, hgoc, hg, hsm, hst, hp, hv, Bool.and_false,
      Bool.false_eq_true, if_false]
    simp only [chat_tail, hllm, hsess, Bool.false_eq_true, if_false]
    have hpt : pyTruthy (some "passport") = true := rfl
    simp only [hpt, Bool.not_true, Bool.false_eq_true, if_false]
    simp only [fallback_case, ← hctry, hwc, Bool.false_eq_true, if_false,
      hsupp, Bool.not_true]
    have hgl : truthyOpt (get_link links country (some "passport")) =
      none := rfl
    simp only [hgl]

/-- C10 witness: the message "india" on a passport-typed session with a
stored visa link for india still gets the no-link apology. -/
theorem C10_passport_no_link_witness :
    get_link [("india", "https://visa.example/ind")] "india"
      (some "passport") = none
    ∧ (chat_response [("india", "https://visa.example/ind")] []
        (fun _ _ => (0 : ℚ)) ⟨"unknown", none⟩ "fresh" (some "s") "india"
        [("s", some "passport")]).reply =
      Reply.fallbackNoLink (some "passport") "india" := by
  have h := C10_passport_no_link [("india", "https://visa.example/ind")] []
    (fun _ _ => (0 : ℚ)) ⟨"unknown", none⟩ "fresh" "s" "india"
    [("s", some "passport")] (by decide) (by decide) (by decide) (by decide)
    (by decide) (by decide) (by decide) (by decide) "india" (by decide)
    (by decide) (by decide)
  exact ⟨h.1 _ _ _ (by decide), h.2⟩

end VPBot
